import Mathlib

/-!
Shallow embedding of `ping.go` (adcreare/Ping-CLI).

The program has two parts:

* `ping(address string) (*net.IPAddr, time.Duration, error)` — resolves the
  host, opens an unprivileged ICMP datagram socket for the address family
  (`udp4` when `dst.IP.To4() != nil`, else `udp6`), marshals an echo request,
  sends it, sets a read deadline of `now + 500ms`, reads one datagram, parses
  it with the family's protocol number (1 or 58) and classifies it by message
  type (echo reply → success with RTT; anything else → error carrying the
  parsed message and the peer).  Resolution, marshal and write failures call
  `log.Fatal` (process exit); socket, deadline, read and parse failures and
  unexpected replies are returned to the caller.

* `main` — loops forever: increments `sentCount`, calls `ping`, on success
  increments `receivedCount`, and on every attempt with `sentCount % 10 == 0`
  logs `pl := ((sentCount - receivedCount) / sentCount) * 100` (Go `int`
  arithmetic, i.e. truncating division).

External effects (resolver, socket, network, clock) are modelled by an
explicit environment record `Env` describing what the outside world does
during one probe attempt; `ping` is a pure function of that environment.
Alongside its Go return value it produces a `Trace` of the arguments the
probe passed to the external calls (listen network, marshalled request,
read deadline, parse protocol), so that properties about those calls can be
stated.  Go `int` is modelled as `Int` with `Int.tdiv` / `Int.tmod`
(truncation toward zero, Go's `/` and `%`).
-/

namespace PingCLI

/-- `ProtocolICMP = 1` from ping.go. -/
def ProtocolICMP : Nat := 1

/-- `ProtocolIPv6ICMP = 58` from ping.go. -/
def ProtocolIPv6ICMP : Nat := 58

/-- Numeric value of `ipv4.ICMPTypeEcho` (golang.org/x/net/ipv4). -/
def icmpTypeEcho : Nat := 8

/-- Numeric value of `ipv4.ICMPTypeEchoReply`. -/
def icmpTypeEchoReply : Nat := 0

/-- Numeric value of `ipv6.ICMPTypeEchoRequest` (golang.org/x/net/ipv6). -/
def icmpV6TypeEchoRequest : Nat := 128

/-- Numeric value of `ipv6.ICMPTypeEchoReply`. -/
def icmpV6TypeEchoReply : Nat := 129

/-- The read-deadline offset: both branches call
`c.SetReadDeadline(time.Now().Add(500 * time.Millisecond))`. -/
def timeoutMs : Nat := 500

/-- A reply's peer address, abstract. -/
abbrev Peer := Nat

/-- A resolved `*net.IPAddr`.  `hasV4` models `dst.IP.To4() != nil`;
`addr` abstracts the address bytes, `zone` the IPv6 zone. -/
structure IPAddr where
  hasV4 : Bool
  addr : Nat
  zone : Nat
deriving DecidableEq, Repr

/-- A parsed `icmp.Message` with an `icmp.Echo` body: type, code,
identifier, sequence number and payload. -/
structure ICMPMessage where
  msgType : Nat
  code : Nat
  id : Nat
  seq : Nat
  data : List Nat
deriving DecidableEq, Repr

/-- The echo request ping.go builds:
`icmp.Message{Type: <echo type>, Code: 0, Body: &icmp.Echo{ID: os.Getpid() & 0xffff, Seq: 1, Data: []byte("")}}`. -/
def echoRequest (echoReqType pid : Nat) : ICMPMessage :=
  { msgType := echoReqType, code := 0, id := pid % 65536, seq := 1, data := [] }

/-- The error values `ping` can return to its caller (`log.Fatal` paths
never return, so they are not represented here).  `unexpected` is
`fmt.Errorf("got %+v from %v", rm, peer)`: it carries the whole parsed
message and the peer. -/
inductive Err where
  | socket
  | deadlineSet
  | readFail
  | parseFail
  | unexpected (rm : ICMPMessage) (peer : Peer)
deriving DecidableEq, Repr

/-- Outcome of one call to `ping`: either the process exits inside the call
(`log.Fatal`), or the triple `(*net.IPAddr, time.Duration, error)` is
returned. RTT is modelled as a `Nat` (nanoseconds, say). -/
inductive PingResult where
  | fatalExit
  | ret (dst : Option IPAddr) (rtt : Nat) (err : Option Err)
deriving DecidableEq, Repr

/-- The network string passed to `icmp.ListenPacket`. -/
inductive UdpNet where
  | udp4
  | udp6
deriving DecidableEq, Repr

/-- Arguments `ping` passed to external calls during one attempt; a field is
`none` when execution never reached the corresponding call. -/
structure Trace where
  listenNetwork : Option UdpNet := none
  request : Option ICMPMessage := none
  deadline : Option Nat := none
  parseProto : Option Nat := none
deriving DecidableEq, Repr

/-- What the outside world does during one probe attempt: the resolver's
answer, the process id, success of each fallible external call, the datagram
received (peer and its parse as an ICMP message), the measured
`time.Since(start)` and the `time.Now()` used for the read deadline. -/
structure Env where
  resolved : Option IPAddr
  pid : Nat
  listenOk : Bool
  marshalOk : Bool
  writeOk : Bool
  deadlineOk : Bool
  readResult : Option Peer
  parsed : Option ICMPMessage
  rtt : Nat
  now : Nat
deriving DecidableEq, Repr

/-- Body shared by the two family branches of `ping` in ping.go (the Go code
duplicates it textually, differing only in the four constants): listen,
build + marshal the echo request, write, set the read deadline, read, parse,
classify by message type.  Marshal and write failures are `log.Fatal`. -/
def pingFamily (net : UdpNet) (echoReqType proto replyType : Nat)
    (dst : IPAddr) (env : Env) : PingResult × Trace :=
  if env.listenOk = false then
    (PingResult.ret none 0 (some Err.socket),
      { listenNetwork := some net })
  else if env.marshalOk = false then
    (PingResult.fatalExit,
      { listenNetwork := some net,
        request := some (echoRequest echoReqType env.pid) })
  else if env.writeOk = false then
    (PingResult.fatalExit,
      { listenNetwork := some net,
        request := some (echoRequest echoReqType env.pid) })
  else if env.deadlineOk = false then
    (PingResult.ret (some dst) 0 (some Err.deadlineSet),
      { listenNetwork := some net,
        request := some (echoRequest echoReqType env.pid),
        deadline := some (env.now + timeoutMs) })
  else
    match env.readResult with
    | none =>
      (PingResult.ret (some dst) 0 (some Err.readFail),
        { listenNetwork := some net,
          request := some (echoRequest echoReqType env.pid),
          deadline := some (env.now + timeoutMs) })
    | some peer =>
      match env.parsed with
      | none =>
        (PingResult.ret (some dst) 0 (some Err.parseFail),
          { listenNetwork := some net,
            request := some (echoRequest echoReqType env.pid),
            deadline := some (env.now + timeoutMs),
            parseProto := some proto })
      | some rm =>
        if rm.msgType = replyType then
          (PingResult.ret (some dst) env.rtt none,
            { listenNetwork := some net,
              request := some (echoRequest echoReqType env.pid),
              deadline := some (env.now + timeoutMs),
              parseProto := some proto })
        else
          (PingResult.ret (some dst) 0 (some (Err.unexpected rm peer)),
            { listenNetwork := some net,
              request := some (echoRequest echoReqType env.pid),
              deadline := some (env.now + timeoutMs),
              parseProto := some proto })

/-- `ping(address)` from ping.go.  Resolution failure is `log.Fatal`;
otherwise `dst.IP.To4() != nil` selects the IPv4 branch
(`udp4`, `ipv4.ICMPTypeEcho`, `ProtocolICMP`, `ipv4.ICMPTypeEchoReply`),
else the IPv6 branch
(`udp6`, `ipv6.ICMPTypeEchoRequest`, `ProtocolIPv6ICMP`, `ipv6.ICMPTypeEchoReply`). -/
def ping (env : Env) : PingResult × Trace :=
  match env.resolved with
  | none => (PingResult.fatalExit, {})
  | some dst =>
    if dst.hasV4 then
      pingFamily UdpNet.udp4 icmpTypeEcho ProtocolICMP icmpTypeEchoReply dst env
    else
      pingFamily UdpNet.udp6 icmpV6TypeEchoRequest ProtocolIPv6ICMP icmpV6TypeEchoReply dst env

/-- The family's echo-reply type, as tested by the `switch rm.Type` of the
branch `ping` takes for `dst`. -/
def familyReplyType (dst : IPAddr) : Nat :=
  if dst.hasV4 then icmpTypeEchoReply else icmpV6TypeEchoReply

/-- How `main`'s per-iteration closure handles the value of `ping`:
`none` = the process died inside `ping` (`log.Fatal`); `some true` = success
logged and `receivedCount` incremented; `some false` = the placeholder
`Ping: * (*), RTT: *` line logged and the loop continues. -/
def handleResult : PingResult → Option Bool
  | PingResult.fatalExit => none
  | PingResult.ret _ _ none => some true
  | PingResult.ret _ _ (some _) => some false

/-- The two counters of `main`, Go `int`s. -/
structure DriverState where
  sentCount : Int
  receivedCount : Int
deriving DecidableEq, Repr

/-- `sentCount := 0; receivedCount := 0`. -/
def initState : DriverState := { sentCount := 0, receivedCount := 0 }

/-- One iteration of `main`'s loop, given whether this attempt's `ping`
returned a nil error: `sentCount++` happens first, `receivedCount++` only on
success. -/
def driverStep (s : DriverState) (success : Bool) : DriverState :=
  { sentCount := s.sentCount + 1
    receivedCount := if success then s.receivedCount + 1 else s.receivedCount }

/-- Counter state after running `main`'s loop over a finite prefix of
attempt outcomes. -/
def driverRun (outcomes : List Bool) : DriverState :=
  outcomes.foldl driverStep initState

/-- The condition `sentCount % 10 == 0` guarding the summary log (Go `%` is
truncating modulus). -/
def summaryDue (s : DriverState) : Bool :=
  Int.tmod s.sentCount 10 == 0

/-- `pl := ((sentCount - receivedCount) / sentCount) * 100` with Go `int`
division (`/` truncates toward zero). -/
def packetLoss (sent received : Int) : Int :=
  (Int.tdiv (sent - received) sent) * 100

/-- `sentCount - receivedCount`, the "(%v packets lost)" figure. -/
def lostPackets (sent received : Int) : Int :=
  sent - received

/-- Classification of a `ping` outcome into the spec's `ProbeResult` kinds,
forgetting the payloads (`Timeout` in this code is just a read failure, so it
falls under `failed`). -/
inductive OutcomeKind where
  | success
  | unexpectedReply
  | failed
  | fatal
deriving DecidableEq, Repr

/-- The kind of outcome a `PingResult` represents. -/
def outcomeKind : PingResult → OutcomeKind
  | PingResult.fatalExit => OutcomeKind.fatal
  | PingResult.ret _ _ none => OutcomeKind.success
  | PingResult.ret _ _ (some (Err.unexpected _ _)) => OutcomeKind.unexpectedReply
  | PingResult.ret _ _ (some _) => OutcomeKind.failed

/-! ### Driver-loop lemmas -/

theorem foldl_driverStep_sentCount (outcomes : List Bool) (s : DriverState) :
    (outcomes.foldl driverStep s).sentCount = s.sentCount + outcomes.length := by
  induction outcomes generalizing s with
  | nil => simp
  | cons o rest ih =>
    simp only [List.foldl, ih, driverStep, List.length_cons]
    push_cast
    ring

theorem foldl_driverStep_received_bounds (outcomes : List Bool) (s : DriverState)
    (h0 : 0 ≤ s.receivedCount) (h1 : s.receivedCount ≤ s.sentCount) :
    0 ≤ (outcomes.foldl driverStep s).receivedCount ∧
      (outcomes.foldl driverStep s).receivedCount ≤
        (outcomes.foldl driverStep s).sentCount := by
  induction outcomes generalizing s with
  | nil => exact ⟨h0, h1⟩
  | cons o rest ih =>
    simp only [List.foldl]
    exact ih (driverStep s o)
      (by cases o <;> simp [driverStep] <;> omega)
      (by cases o <;> simp [driverStep] <;> omega)

theorem driverRun_sentCount (outcomes : List Bool) :
    (driverRun outcomes).sentCount = outcomes.length := by
  unfold driverRun
  rw [foldl_driverStep_sentCount]
  simp [initState]

theorem driverRun_received_bounds (outcomes : List Bool) :
    0 ≤ (driverRun outcomes).receivedCount ∧
      (driverRun outcomes).receivedCount ≤ (driverRun outcomes).sentCount := by
  unfold driverRun
  exact foldl_driverStep_received_bounds outcomes initState (by simp [initState])
    (by simp [initState])

theorem packetLoss_eq_ite (sent received : Int) (hs : 0 < sent)
    (h0 : 0 ≤ received) (h1 : received ≤ sent) :
    packetLoss sent received = if received = 0 then 100 else 0 := by
  lift sent to ℕ using le_of_lt hs with s
  lift received to ℕ using h0 with r
  have hs' : 0 < s := by exact_mod_cast hs
  have hr' : r ≤ s := by exact_mod_cast h1
  unfold packetLoss
  have h2 : ((s : Int) - (r : Int)) = ((s - r : Nat) : Int) := by omega
  rw [h2, ← Int.ofNat_tdiv]
  by_cases hr0 : r = 0
  · subst hr0
    simp [Nat.div_self hs']
  · have hlt : s - r < s := by omega
    simp [Nat.div_eq_of_lt hlt, hr0]

/-! ### Claims about the Driver's counters and loss formula -/

/-- A run of ten attempts of which the last three fail
(7 successes, 3 failures). -/
def tenAttempts : List Bool :=
  [true, true, true, true, true, true, true, false, false, false]

/-- C1: after exactly 10 attempts with exactly 3 failures the counters are
`sentCount = 10, receivedCount = 7` and the summary fires, but the logged
loss percentage `((10 - 7) / 10) * 100` is `0`, not the `30` the claim
states: Go's integer division truncates `3 / 10` to `0` before the
multiplication by 100. -/
theorem loss_after_ten_attempts_three_failures_is_zero :
    driverRun tenAttempts = { sentCount := 10, receivedCount := 7 } ∧
    summaryDue (driverRun tenAttempts) = true ∧
    packetLoss 10 7 = 0 ∧
    packetLoss 10 7 ≠ 30 ∧
    lostPackets 10 7 = 3 := by
  decide

/-- C7: whenever the summary guard `sentCount % 10 == 0` holds after at
least one iteration of the loop, `sentCount ≥ 10` (so in particular the
divisor in the loss computation is nonzero): `sentCount` is incremented on
every iteration before the guard is tested, so it equals the number of
iterations run. -/
theorem summary_divisor_at_least_ten (outcomes : List Bool)
    (hne : outcomes ≠ []) (hdue : summaryDue (driverRun outcomes) = true) :
    10 ≤ (driverRun outcomes).sentCount ∧ (driverRun outcomes).sentCount ≠ 0 := by
  have hlen := driverRun_sentCount outcomes
  unfold summaryDue at hdue
  rw [hlen] at hdue ⊢
  rw [show (10 : Int) = ((10 : Nat) : Int) from rfl, ← Int.ofNat_tmod] at hdue
  have hmod : outcomes.length % 10 = 0 := by exact_mod_cast of_decide_eq_true hdue
  have hpos : 0 < outcomes.length := List.length_pos.mpr hne
  constructor
  · exact_mod_cast Nat.le_of_dvd hpos (Nat.dvd_of_mod_eq_zero hmod)
  · exact_mod_cast Nat.pos_iff_ne_zero.mp hpos

/-- C9: for any nonempty run of the loop, the loss percentage the Driver
would log is `0` or `100`; it is `0` whenever at least one attempt succeeded
(`receivedCount > 0`), and it is `100` exactly when every attempt failed
(`receivedCount = 0`): the integer division `(sent - received) / sent`
truncates to `0` unless `received = 0`. -/
theorem loss_percentage_only_zero_or_hundred (outcomes : List Bool)
    (hne : outcomes ≠ []) :
    (packetLoss (driverRun outcomes).sentCount (driverRun outcomes).receivedCount = 0 ∨
      packetLoss (driverRun outcomes).sentCount (driverRun outcomes).receivedCount = 100) ∧
    (0 < (driverRun outcomes).receivedCount →
      packetLoss (driverRun outcomes).sentCount (driverRun outcomes).receivedCount = 0) ∧
    (packetLoss (driverRun outcomes).sentCount (driverRun outcomes).receivedCount = 100 →
      (driverRun outcomes).receivedCount = 0) ∧
    ((driverRun outcomes).receivedCount = 0 →
      packetLoss (driverRun outcomes).sentCount (driverRun outcomes).receivedCount = 100) := by
  have hs : 0 < (driverRun outcomes).sentCount := by
    rw [driverRun_sentCount]
    exact_mod_cast List.length_pos.mpr hne
  have hb := driverRun_received_bounds outcomes
  rw [packetLoss_eq_ite _ _ hs hb.1 hb.2]
  by_cases h0 : (driverRun outcomes).receivedCount = 0 <;> simp [h0]

/-- Witness for C7 at the concrete ten-attempt run. -/
theorem summary_divisor_at_least_ten_witness :
    10 ≤ (driverRun tenAttempts).sentCount ∧
      (driverRun tenAttempts).sentCount ≠ 0 :=
  summary_divisor_at_least_ten tenAttempts (by decide) (by decide)

/-- Witness for C9 at the concrete ten-attempt run. -/
theorem loss_percentage_only_zero_or_hundred_witness :
    (packetLoss (driverRun tenAttempts).sentCount
        (driverRun tenAttempts).receivedCount = 0 ∨
      packetLoss (driverRun tenAttempts).sentCount
        (driverRun tenAttempts).receivedCount = 100) ∧
    (0 < (driverRun tenAttempts).receivedCount →
      packetLoss (driverRun tenAttempts).sentCount
        (driverRun tenAttempts).receivedCount = 0) ∧
    (packetLoss (driverRun tenAttempts).sentCount
        (driverRun tenAttempts).receivedCount = 100 →
      (driverRun tenAttempts).receivedCount = 0) ∧
    ((driverRun tenAttempts).receivedCount = 0 →
      packetLoss (driverRun tenAttempts).sentCount
        (driverRun tenAttempts).receivedCount = 100) :=
  loss_percentage_only_zero_or_hundred tenAttempts (by decide)

/-! ### Claims about `ping`'s error handling -/

/-- A v4 target, abstract address. -/
def dstV4 : IPAddr := { hasV4 := true, addr := 0, zone := 0 }

/-- A v6-only target. -/
def dstV6 : IPAddr := { hasV4 := false, addr := 1, zone := 0 }

/-- An attempt whose socket creation (`icmp.ListenPacket`) fails. -/
def envSocketFail : Env :=
  { resolved := some dstV4, pid := 0, listenOk := false, marshalOk := true,
    writeOk := true, deadlineOk := true, readResult := none, parsed := none,
    rtt := 0, now := 0 }

/-- An attempt whose host resolution (`net.ResolveIPAddr`) fails. -/
def envResolveFail : Env :=
  { resolved := none, pid := 0, listenOk := true, marshalOk := true,
    writeOk := true, deadlineOk := true, readResult := none, parsed := none,
    rtt := 0, now := 0 }

/-- C2 counterexample: on a socket-creation failure the process does NOT
terminate — `ping` returns the error (`return nil, 0, error`) and `main`'s
handler logs the placeholder line and continues the loop. -/
theorem socket_failure_not_fatal_cex :
    (ping envSocketFail).1 ≠ PingResult.fatalExit ∧
    handleResult (ping envSocketFail).1 = some false := by
  decide

/-- C2 amended: if opening the ICMP datagram socket fails during a probe
attempt, `ping` returns `(nil, 0, error)` to its caller — a recoverable
per-attempt outcome (the Driver logs a failure line and continues), not a
process exit. -/
theorem socket_failure_returned_to_caller (env : Env) (dst : IPAddr)
    (hres : env.resolved = some dst) (hl : env.listenOk = false) :
    (ping env).1 = PingResult.ret none 0 (some Err.socket) ∧
    handleResult (ping env).1 = some false := by
  unfold ping pingFamily
  rw [hres]
  cases h4 : dst.hasV4 <;> simp [hl, h4, handleResult]

/-- Witness for C2's amended theorem at a concrete environment. -/
theorem socket_failure_returned_to_caller_witness :
    (ping envSocketFail).1 = PingResult.ret none 0 (some Err.socket) ∧
    handleResult (ping envSocketFail).1 = some false :=
  socket_failure_returned_to_caller envSocketFail dstV4 rfl rfl

/-- C3 counterexample: on a resolution failure `ping` does not return an
error value to its caller at all — it calls `log.Fatal`, terminating the
whole process (the caller's handler is never reached). -/
theorem resolution_failure_no_return_cex :
    (ping envResolveFail).1 = PingResult.fatalExit ∧
    handleResult (ping envResolveFail).1 = none := by
  decide

/-- C3 amended: for every host string whose resolution fails, `ping`
terminates the whole process via `log.Fatal(error)` instead of propagating
an error value to its caller. -/
theorem resolution_failure_fatal_to_process (env : Env)
    (hres : env.resolved = none) :
    (ping env).1 = PingResult.fatalExit ∧
    handleResult (ping env).1 = none := by
  simp [ping, hres, handleResult]

/-- Witness for C3's amended theorem at a concrete environment. -/
theorem resolution_failure_fatal_to_process_witness :
    (ping envResolveFail).1 = PingResult.fatalExit ∧
    handleResult (ping envResolveFail).1 = none :=
  resolution_failure_fatal_to_process envResolveFail rfl

/-! ### Claims about reply classification -/

/-- Helper: on a fully successful path up to the parse, classification is by
message type against the family's echo-reply type. -/
theorem ping_reply_cases (env : Env) (dst : IPAddr) (peer : Peer)
    (rm : ICMPMessage) (hres : env.resolved = some dst)
    (hl : env.listenOk = true) (hm : env.marshalOk = true)
    (hw : env.writeOk = true) (hd : env.deadlineOk = true)
    (hr : env.readResult = some peer) (hp : env.parsed = some rm) :
    (rm.msgType = familyReplyType dst →
      (ping env).1 = PingResult.ret (some dst) env.rtt none) ∧
    (rm.msgType ≠ familyReplyType dst →
      (ping env).1 = PingResult.ret (some dst) 0 (some (Err.unexpected rm peer))) := by
  unfold ping pingFamily familyReplyType
  rw [hres]
  cases h4 : dst.hasV4 <;>
    simp only [h4, hl, hm, hw, hd, hr, hp, if_true, if_false, Bool.true_eq_false,
      Bool.false_eq_true, ite_true, ite_false] <;>
    constructor <;> intro hmt <;> simp [hmt]

/-- C4: when a datagram is received and parses as an ICMP/ICMPv6 message,
classification is by message type alone: the family's echo-reply type gives
success carrying the measured round-trip time, every other type gives the
error `fmt.Errorf("got %+v from %v", rm, peer)` (carrying the parsed
message and the peer) with a zero duration. -/
theorem reply_classified_by_type (env : Env) (dst : IPAddr) (peer : Peer)
    (rm : ICMPMessage) (hres : env.resolved = some dst)
    (hl : env.listenOk = true) (hm : env.marshalOk = true)
    (hw : env.writeOk = true) (hd : env.deadlineOk = true)
    (hr : env.readResult = some peer) (hp : env.parsed = some rm) :
    (rm.msgType = familyReplyType dst →
      (ping env).1 = PingResult.ret (some dst) env.rtt none) ∧
    (rm.msgType ≠ familyReplyType dst →
      (ping env).1 = PingResult.ret (some dst) 0 (some (Err.unexpected rm peer))) :=
  ping_reply_cases env dst peer rm hres hl hm hw hd hr hp

/-- A successful v4 echo exchange: all calls succeed, the received datagram
parses as an echo reply (type 0) whose identifier and sequence do not match
the request that was sent. -/
def envEchoReply : Env :=
  { resolved := some dstV4, pid := 3, listenOk := true, marshalOk := true,
    writeOk := true, deadlineOk := true, readResult := some 7,
    parsed := some { msgType := 0, code := 0, id := 999, seq := 55, data := [] },
    rtt := 42, now := 1000 }

/-- Witness for C4 at a concrete environment: the echo reply yields success
with the measured RTT. -/
theorem reply_classified_by_type_witness :
    (ping envEchoReply).1 = PingResult.ret (some dstV4) 42 none :=
  (reply_classified_by_type envEchoReply dstV4 7
    { msgType := 0, code := 0, id := 999, seq := 55, data := [] }
    rfl rfl rfl rfl rfl rfl rfl).1 (by decide)

/-- C5: the outcome classification never depends on the reply's identifier
or sequence fields: two received datagrams that differ only in
identifier/sequence (same type, code and payload) produce the same outcome
kind, and an echo-reply-typed datagram yields success with the measured RTT
regardless of its identifier/sequence. -/
theorem classification_ignores_identifier_sequence (env : Env)
    (rm1 rm2 : ICMPMessage) (ht : rm1.msgType = rm2.msgType)
    (hc : rm1.code = rm2.code) (hdata : rm1.data = rm2.data) :
    outcomeKind (ping { env with parsed := some rm1 }).1 =
      outcomeKind (ping { env with parsed := some rm2 }).1 ∧
    (∀ dst peer, env.resolved = some dst → env.listenOk = true →
      env.marshalOk = true → env.writeOk = true → env.deadlineOk = true →
      env.readResult = some peer → rm1.msgType = familyReplyType dst →
      (ping { env with parsed := some rm1 }).1 =
        PingResult.ret (some dst) env.rtt none) := by
  constructor
  · unfold ping pingFamily
    cases hres : env.resolved with
    | none => rfl
    | some dst =>
      cases h4 : dst.hasV4 <;>
        cases hl : env.listenOk <;>
        cases hm : env.marshalOk <;>
        cases hw : env.writeOk <;>
        cases hd : env.deadlineOk <;>
        cases hr : env.readResult <;>
        simp only [h4, hl, hm, hw, hd, hr, if_true, if_false, Bool.true_eq_false,
          Bool.false_eq_true, ite_true, ite_false, ht] <;>
        first
          | rfl
          | (split_ifs <;> rfl)
  · intro dst peer hres hl hm hw hd hr hmt
    have := ping_reply_cases { env with parsed := some rm1 } dst peer rm1
      hres hl hm hw hd hr rfl
    exact this.1 hmt

/-- An echo reply whose identifier/sequence do not match the request. -/
def rmReplyA : ICMPMessage :=
  { msgType := 0, code := 0, id := 999, seq := 55, data := [] }

/-- An echo reply with yet different identifier/sequence. -/
def rmReplyB : ICMPMessage :=
  { msgType := 0, code := 0, id := 1, seq := 2, data := [] }

/-- Witness for C5 at two concrete replies differing only in
identifier/sequence. -/
theorem classification_ignores_identifier_sequence_witness :
    outcomeKind (ping { envEchoReply with parsed := some rmReplyA }).1 =
      outcomeKind (ping { envEchoReply with parsed := some rmReplyB }).1 :=
  (classification_ignores_identifier_sequence envEchoReply rmReplyA rmReplyB
    rfl rfl rfl).1

/-! ### Claims about family selection and the read deadline -/

/-- Helper: the external-call arguments recorded by either family branch:
the listen network is always the branch's network string, the marshalled
request uses the branch's echo type, the read deadline is `now + timeoutMs`,
and the parse protocol is the branch's protocol number, each once execution
reaches the corresponding call. -/
theorem pingFamily_trace (net : UdpNet) (ert proto rt : Nat) (dst : IPAddr)
    (env : Env) :
    (pingFamily net ert proto rt dst env).2.listenNetwork = some net ∧
    (env.listenOk = true →
      (pingFamily net ert proto rt dst env).2.request =
        some (echoRequest ert env.pid)) ∧
    (env.listenOk = true → env.marshalOk = true → env.writeOk = true →
      (pingFamily net ert proto rt dst env).2.deadline =
        some (env.now + timeoutMs)) ∧
    (env.listenOk = true → env.marshalOk = true → env.writeOk = true →
      env.deadlineOk = true → env.readResult.isSome = true →
      (pingFamily net ert proto rt dst env).2.parseProto = some proto) := by
  unfold pingFamily
  cases hl : env.listenOk <;> cases hm : env.marshalOk <;>
    cases hw : env.writeOk <;> cases hd : env.deadlineOk <;>
    cases hr : env.readResult <;> cases hp : env.parsed <;>
    simp only [hl, hm, hw, hd, hr, hp, if_true, if_false, Bool.true_eq_false,
      Bool.false_eq_true, ite_true, ite_false] <;>
    first
      | (split_ifs <;> simp)
      | simp

/-- C6: the resolved address's family drives every ICMP constant of the
attempt: a v4-representable address (`dst.IP.To4() != nil`) gives the
`udp4` listen network, an `ipv4.ICMPTypeEcho` (type 8) request and parse
protocol 1; otherwise the attempt uses `udp6`, an `ipv6.ICMPTypeEchoRequest`
(type 128) request and parse protocol 58. -/
theorem family_selection_policy (env : Env) (dst : IPAddr)
    (hres : env.resolved = some dst) :
    (dst.hasV4 = true →
      (ping env).2.listenNetwork = some UdpNet.udp4 ∧
      (env.listenOk = true →
        (ping env).2.request = some (echoRequest icmpTypeEcho env.pid)) ∧
      (env.listenOk = true → env.marshalOk = true → env.writeOk = true →
        env.deadlineOk = true → env.readResult.isSome = true →
        (ping env).2.parseProto = some ProtocolICMP)) ∧
    (dst.hasV4 = false →
      (ping env).2.listenNetwork = some UdpNet.udp6 ∧
      (env.listenOk = true →
        (ping env).2.request = some (echoRequest icmpV6TypeEchoRequest env.pid)) ∧
      (env.listenOk = true → env.marshalOk = true → env.writeOk = true →
        env.deadlineOk = true → env.readResult.isSome = true →
        (ping env).2.parseProto = some ProtocolIPv6ICMP)) := by
  constructor <;> intro h4 <;>
    · unfold ping
      rw [hres]
      simp only [h4, if_true, if_false, Bool.true_eq_false, Bool.false_eq_true,
        ite_true, ite_false]
      first
        | exact ⟨(pingFamily_trace UdpNet.udp4 icmpTypeEcho ProtocolICMP
              icmpTypeEchoReply dst env).1,
            (pingFamily_trace UdpNet.udp4 icmpTypeEcho ProtocolICMP
              icmpTypeEchoReply dst env).2.1,
            (pingFamily_trace UdpNet.udp4 icmpTypeEcho ProtocolICMP
              icmpTypeEchoReply dst env).2.2.2⟩
        | exact ⟨(pingFamily_trace UdpNet.udp6 icmpV6TypeEchoRequest
              ProtocolIPv6ICMP icmpV6TypeEchoReply dst env).1,
            (pingFamily_trace UdpNet.udp6 icmpV6TypeEchoRequest
              ProtocolIPv6ICMP icmpV6TypeEchoReply dst env).2.1,
            (pingFamily_trace UdpNet.udp6 icmpV6TypeEchoRequest
              ProtocolIPv6ICMP icmpV6TypeEchoReply dst env).2.2.2⟩

/-- Witness for C6 at a concrete v4 environment. -/
theorem family_selection_policy_witness :
    (ping envEchoReply).2.listenNetwork = some UdpNet.udp4 ∧
    (ping envEchoReply).2.request = some (echoRequest icmpTypeEcho 3) ∧
    (ping envEchoReply).2.parseProto = some ProtocolICMP := by
  have h := (family_selection_policy envEchoReply dstV4 rfl).1 rfl
  exact ⟨h.1, h.2.1 rfl, h.2.2 rfl rfl rfl rfl rfl⟩

/-- C8: in both family branches, once execution reaches the
`SetReadDeadline` call (listen, marshal and write succeeded), the deadline
passed to it is `now + 500` milliseconds — the fixed 500 ms constant. -/
theorem read_deadline_now_plus_500ms (env : Env) (dst : IPAddr)
    (hres : env.resolved = some dst) (hl : env.listenOk = true)
    (hm : env.marshalOk = true) (hw : env.writeOk = true) :
    (ping env).2.deadline = some (env.now + 500) := by
  unfold ping
  rw [hres]
  cases h4 : dst.hasV4 <;>
    simp only [h4, if_true, if_false, Bool.true_eq_false, Bool.false_eq_true,
      ite_true, ite_false] <;>
    first
      | exact (pingFamily_trace UdpNet.udp4 icmpTypeEcho ProtocolICMP
          icmpTypeEchoReply dst env).2.2.1 hl hm hw
      | exact (pingFamily_trace UdpNet.udp6 icmpV6TypeEchoRequest
          ProtocolIPv6ICMP icmpV6TypeEchoReply dst env).2.2.1 hl hm hw

/-- Witness for C8 at a concrete environment (`now = 1000`). -/
theorem read_deadline_now_plus_500ms_witness :
    (ping envEchoReply).2.deadline = some 1500 :=
  read_deadline_now_plus_500ms envEchoReply dstV4 rfl rfl rfl rfl

/-! ### Claim: durations on error paths -/

/-- C10: whenever `ping` returns to its caller, a non-nil error comes with a
round-trip duration of exactly 0, and a strictly positive duration comes
only with a nil error (the echo-reply success path, which returns the
measured `time.Since(start)`). -/
theorem nonzero_rtt_only_on_success (env : Env) (dstv : Option IPAddr)
    (rtt : Nat) (err : Option Err)
    (h : (ping env).1 = PingResult.ret dstv rtt err) :
    (err.isSome = true → rtt = 0) ∧ (0 < rtt → err = none) := by
  unfold ping pingFamily at h
  cases hres : env.resolved with
  | none =>
    rw [hres] at h
    simp at h
  | some dst =>
    rw [hres] at h
    cases h4 : dst.hasV4 <;> cases hl : env.listenOk <;>
      cases hm : env.marshalOk <;> cases hw : env.writeOk <;>
      cases hd : env.deadlineOk <;> cases hr : env.readResult <;>
      cases hp : env.parsed <;>
      simp only [h4, hl, hm, hw, hd, hr, hp, if_true, if_false,
        Bool.true_eq_false, Bool.false_eq_true, ite_true, ite_false] at h <;>
      first
        | simp_all
        | (split_ifs at h <;> simp_all)

/-- Witness for C10: a read failure returns duration 0 with an error. -/
theorem nonzero_rtt_only_on_success_witness :
    ((some Err.socket : Option Err).isSome = true → (0 : Nat) = 0) ∧
    (0 < (0 : Nat) → (some Err.socket : Option Err) = none) :=
  nonzero_rtt_only_on_success envSocketFail none 0 (some Err.socket) (by decide)

end PingCLI

